import Mathlib

/-!
Shallow embedding of the eurosec-backend invoice pipeline.

The definitions below are translated from the repository's JavaScript
sources: `src/services/pdf.service.js` (price/address/line-item
formatting and the invoice PDF orchestrator), `src/services/draftOrder.service.js`
(draft order creation) and the Shopify file service (staged upload and the
file-readiness polling loop).

Modelling conventions, applied uniformly:
* JavaScript strings that the code only ever tests for truthiness are
  modelled as `String`, with `""` standing for both the empty string and an
  absent (`undefined`/`null`) field - the code treats the two identically
  via `x || y` chains.
* Fields whose presence the code distinguishes structurally (optional
  chaining on objects) are modelled as `Option`.
* JavaScript numbers in amount positions are modelled as `Rat`; amounts
  arriving from the platform may be absent, numeric or strings, modelled by
  `JsAmount`.
* Time (`Date.now()`) is passed in explicitly as a `Nat` parameter `now`.
* Remote calls are modelled as injected functions returning `Except`, with
  a thrown JavaScript error modelled as the `.error` case.
-/

namespace Eurosec

/-- JavaScript `a || b` on strings: the empty string is the only falsy string. -/
def jsOr (a b : String) : String := if a ≠ "" then a else b

/-- A JavaScript value in an amount position: absent (`undefined` or `null`),
a number, or a string, as accepted by `parseAmount` in pdf.service.js. -/
inductive JsAmount where
  | missing : JsAmount
  | num (q : Rat) : JsAmount
  | str (s : String) : JsAmount
deriving DecidableEq

/-- Value of a most-significant-first decimal digit character list. -/
def digitsVal (cs : List Char) : Nat :=
  cs.foldl (fun acc c => 10 * acc + (c.toNat - 48)) 0

/-- Model of JavaScript `parseFloat` on a string's character list: skip
leading whitespace, an optional sign, then a run of digits with an optional
fractional part. `none` models `NaN` (no digit could be parsed). Exponent
suffixes are not modelled; platform amount strings are plain decimals. -/
def parseFloatChars (cs : List Char) : Option Rat :=
  let cs1 := cs.dropWhile Char.isWhitespace
  let sgn : Rat :=
    match cs1 with
    | '-' :: _ => -1
    | _ => 1
  let cs2 : List Char :=
    match cs1 with
    | '-' :: rest => rest
    | '+' :: rest => rest
    | _ => cs1
  let intPart := cs2.takeWhile Char.isDigit
  let rest2 := cs2.dropWhile Char.isDigit
  let fracPart : List Char :=
    match rest2 with
    | '.' :: rest3 => rest3.takeWhile Char.isDigit
    | _ => []
  if intPart = [] ∧ fracPart = [] then none
  else some (sgn * ((digitsVal intPart : Rat) + (digitsVal fracPart : Rat) / (10 : Rat) ^ fracPart.length))

/-- `parseAmount` from pdf.service.js: `undefined`/`null` parse to 0, a number
passes through, a string goes through `parseFloat(amount) || 0` (so an
unparseable string, i.e. `NaN`, becomes 0). -/
def parseAmount : JsAmount → Rat
  | .missing => 0
  | .num q => q
  | .str s => (parseFloatChars s.data).getD 0

/-- The two decimal digit characters of `r % 100`, zero padded to width 2,
as produced by `toFixed(2)` after the decimal point. -/
def twoDecimalChars (r : Nat) : List Char :=
  [Nat.digitChar (r / 10 % 10), Nat.digitChar (r % 10)]

/-- Model of JavaScript `x.toFixed(2)` for a nonnegative rational: round
`x * 100` to the nearest integer (ties up) and print integer part, a dot and
exactly two decimal digits. -/
def toFixed2Abs (q : Rat) : String :=
  let n : Nat := (q * 100 + 1 / 2).floor.toNat
  Nat.repr (n / 100) ++ "." ++ String.mk (twoDecimalChars (n % 100))

/-- Model of JavaScript `Number(x).toFixed(2)`: a negative value prints as the
minus sign followed by `toFixed2` of its absolute value (ECMAScript semantics). -/
def toFixed2 (q : Rat) : String :=
  if q < 0 then "-" ++ toFixed2Abs (-q) else toFixed2Abs q

/-- `formatPrice` from pdf.service.js: `undefined`/`null` format as
`{symbol}0.00`, otherwise the symbol followed by `Number(price).toFixed(2)`. -/
def formatPrice (price : Option Rat) (currencySymbol : String) : String :=
  match price with
  | none => currencySymbol ++ "0.00"
  | some p => currencySymbol ++ toFixed2 p

/-- Model of JavaScript `Math.round`: floor of `x + 1/2`. -/
def jsRound (q : Rat) : Int := (q + 1 / 2).floor

/-- The percentage rendering used throughout pdf.service.js:
`Math.round(rate * 100) + "%"`. -/
def ratePercent (rate : Rat) : String := toString (jsRound (rate * 100)) ++ "%"

/-- Model of JavaScript `String.prototype.trim`: strip leading and trailing
whitespace. -/
def jsTrim (s : String) : String :=
  String.mk (((s.data.dropWhile Char.isWhitespace).reverse.dropWhile Char.isWhitespace).reverse)

/-- An address record. Absent JavaScript fields are modelled as `""`,
matching the code's uniform `x || y || ''` falsy handling. -/
structure Address where
  firstName : String
  lastName : String
  address1 : String
  address2 : String
  city : String
  province : String
  provinceCode : String
  country : String
  countryCode : String
  zip : String
  phone : String
  company : String
deriving DecidableEq

/-- The address with every field empty (the JavaScript `{}` literal under the
empty-string-for-absent convention). -/
def Address.empty : Address :=
  { firstName := "", lastName := "", address1 := "", address2 := "", city := ""
    province := "", provinceCode := "", country := "", countryCode := ""
    zip := "", phone := "", company := "" }

/-- `mergeAddress` from draftOrder.service.js: field by field
`primary.f || fallback.f || ''`. -/
def mergeAddress (primary fallback : Address) : Address :=
  { firstName := jsOr primary.firstName (jsOr fallback.firstName "")
    lastName := jsOr primary.lastName (jsOr fallback.lastName "")
    address1 := jsOr primary.address1 (jsOr fallback.address1 "")
    address2 := jsOr primary.address2 (jsOr fallback.address2 "")
    city := jsOr primary.city (jsOr fallback.city "")
    province := jsOr primary.province (jsOr fallback.province "")
    provinceCode := jsOr primary.provinceCode (jsOr fallback.provinceCode "")
    country := jsOr primary.country (jsOr fallback.country "")
    countryCode := jsOr primary.countryCode (jsOr fallback.countryCode "")
    zip := jsOr primary.zip (jsOr fallback.zip "")
    phone := jsOr primary.phone (jsOr fallback.phone "")
    company := jsOr primary.company (jsOr fallback.company "") }

/-- The twelve field projections of an `Address`, used to state field-by-field
properties of the merge. -/
def addressFields : List (Address → String) :=
  [Address.firstName, Address.lastName, Address.address1, Address.address2,
   Address.city, Address.province, Address.provinceCode, Address.country,
   Address.countryCode, Address.zip, Address.phone, Address.company]

/-- A customer record ({id, email, firstName, lastName}); absent fields are `""`. -/
structure Customer where
  id : String
  email : String
  firstName : String
  lastName : String
deriving DecidableEq

/-- A B2B company as selected by the purchasing-entity GraphQL fragment. -/
structure Company where
  name : String
deriving DecidableEq

/-- The display address record built by `formatInvoiceAddress`. The branch for
a missing address omits `province` in the JavaScript object; an omitted display
field is modelled as `""`. -/
structure InvoiceAddress where
  companyName : String
  name : String
  line1 : String
  line2 : String
  city : String
  zip : String
  province : String
  country : String
deriving DecidableEq

/-- `formatInvoiceAddress` from pdf.service.js: display name prefers the
address's firstName+lastName (both required), then the customer's
firstName+lastName (both required), then the literal "Customer"; company name
is `company?.name || address.company || ''`. -/
def formatInvoiceAddress (address : Option Address) (customer : Option Customer)
    (company : Option Company) : InvoiceAddress :=
  let customerName : String :=
    match customer with
    | some c =>
      if c.firstName ≠ "" ∧ c.lastName ≠ "" then jsTrim (c.firstName ++ " " ++ c.lastName)
      else "Customer"
    | none => "Customer"
  let companyName0 : String :=
    match company with
    | some c => c.name
    | none => ""
  match address with
  | none =>
    { companyName := companyName0, name := customerName, line1 := "", line2 := ""
      city := "", zip := "", province := "", country := "" }
  | some a =>
    { companyName := jsOr companyName0 (jsOr a.company "")
      name :=
        if a.firstName ≠ "" ∧ a.lastName ≠ "" then jsTrim (a.firstName ++ " " ++ a.lastName)
        else customerName
      line1 := a.address1, line2 := a.address2, city := a.city, zip := a.zip
      province := a.province, country := a.country }

/-- A tax line `{title, rate, price}` as returned by the platform. The rate is
a fraction (e.g. 0.24); the code's `rate || 0` guard is the identity once a
rate is a rational (0 maps to 0). -/
structure TaxLine where
  title : String
  rate : Rat
  price : JsAmount
deriving DecidableEq

/-- `getLineItemVatRate` from pdf.service.js: the first tax line's rate
(`taxLines[0].rate || 0`), or 0 when the list is missing or empty. -/
def getLineItemVatRate (taxLines : List TaxLine) : Rat :=
  match taxLines with
  | [] => 0
  | t :: _ => t.rate

/-- A product variant as selected by the line-item GraphQL fragment. -/
structure ProductVariant where
  id : String
  title : String
  sku : String
deriving DecidableEq

/-- A draft order line-item node. `quantity` 0 also stands for an absent
quantity: the code collapses both through `node.quantity || 1`. -/
structure LineItemNode where
  id : String
  title : String
  quantity : Nat
  originalUnitPrice : JsAmount
  taxLines : List TaxLine
  variant : Option ProductVariant
deriving DecidableEq

/-- One edge of the line-items GraphQL connection. -/
structure LineItemEdge where
  node : LineItemNode
deriving DecidableEq

/-- The line-items connection; `edges` may itself be absent. -/
structure LineItemConnection where
  edges : Option (List LineItemEdge)
deriving DecidableEq

/-- A processed invoice line item as built by `processInvoiceLineItems`. -/
structure InvoiceLineItem where
  description : String
  title : String
  variantTitle : String
  sku : String
  quantity : Nat
  unitPrice : String
  unitPriceRaw : Rat
  vatRate : Rat
  vatRateFormatted : String
  amount : String
  amountRaw : Rat
deriving DecidableEq

/-- The per-edge mapping body of `processInvoiceLineItems` in pdf.service.js:
quantity defaults through `node.quantity || 1`, the unit price is
`parseAmount(node.originalUnitPrice)`, the line total is unit price times
quantity, and the description is title plus optional variant title and SKU. -/
def processLineItemNode (currencySymbol : String) (node : LineItemNode) : InvoiceLineItem :=
  let quantity := if node.quantity = 0 then 1 else node.quantity
  let unitPrice := parseAmount node.originalUnitPrice
  let lineTotal := unitPrice * (quantity : Rat)
  let vatRate := getLineItemVatRate node.taxLines
  let variantTitle : String :=
    match node.variant with
    | some v => v.title
    | none => ""
  let sku : String :=
    match node.variant with
    | some v => v.sku
    | none => ""
  let base := if node.title ≠ "" then node.title else "Product"
  let withVariant :=
    if variantTitle ≠ "" ∧ variantTitle ≠ "Default Title" ∧ variantTitle ≠ node.title then
      base ++ " (" ++ variantTitle ++ ")"
    else base
  let description := if sku ≠ "" then withVariant ++ " (" ++ sku ++ ")" else withVariant
  { description := description, title := node.title, variantTitle := variantTitle
    sku := sku, quantity := quantity
    unitPrice := formatPrice (some unitPrice) currencySymbol
    unitPriceRaw := unitPrice
    vatRate := vatRate, vatRateFormatted := ratePercent vatRate
    amount := formatPrice (some lineTotal) currencySymbol
    amountRaw := lineTotal }

/-- `processInvoiceLineItems` from pdf.service.js: `if (!lineItems?.edges)
return []`, otherwise map every edge's node. -/
def processInvoiceLineItems (lineItems : Option LineItemConnection)
    (currencySymbol : String) : List InvoiceLineItem :=
  match lineItems with
  | none => []
  | some conn =>
    match conn.edges with
    | none => []
    | some edges => edges.map (fun e => processLineItemNode currencySymbol e.node)

/-- `getPrimaryVatRate` from pdf.service.js: the first line item whose rate is
`> 0` (the guard `lineItems && lineItems.length > 0` is subsumed by `find` on
a possibly empty list), else the first order tax line's rate (`rate || 0`,
the identity on rationals), else the hardcoded default 0.24. -/
def getPrimaryVatRate (lineItems : List InvoiceLineItem) (orderTaxLines : List TaxLine) : Rat :=
  match lineItems.find? (fun item => decide (0 < item.vatRate)) with
  | some item => item.vatRate
  | none =>
    match orderTaxLines with
    | t :: _ => t.rate
    | [] => 24 / 100

/-- First maximal run of decimal digits in a character list: the JavaScript
regex match `/\d+/` used by `generateInvoiceNumber`. -/
def firstDigitRun : List Char → Option (List Char)
  | [] => none
  | c :: rest =>
    if c.isDigit then some (c :: rest.takeWhile Char.isDigit)
    else firstDigitRun rest

/-- JavaScript `s.slice(-n)`: at most the last `n` characters of a string. -/
def sliceLast (s : String) (n : Nat) : String :=
  String.mk (s.data.drop (s.data.length - n))

/-- `generateInvoiceNumber` from pdf.service.js: for a truthy name, the prefix
followed by the first digit run of the name when one exists; otherwise the
prefix followed by `Date.now().toString().slice(-6)`. `now` models `Date.now()`. -/
def generateInvoiceNumber (draftOrderName : Option String) (pfx : String) (now : Nat) : String :=
  match draftOrderName with
  | some name =>
    if name ≠ "" then
      match firstDigitRun name.data with
      | some ds => pfx ++ String.mk ds
      | none => pfx ++ sliceLast (Nat.repr now) 6
    else pfx ++ sliceLast (Nat.repr now) 6
  | none => pfx ++ sliceLast (Nat.repr now) 6

/-- Decimal digit characters of a natural number, most significant first:
the specification-side counterpart of `Nat.repr` used to reason about the
time-based fallback. -/
def decChars (n : Nat) : List Char :=
  if n < 10 then [Nat.digitChar n]
  else decChars (n / 10) ++ [Nat.digitChar (n % 10)]
decreasing_by exact Nat.div_lt_self (by omega) (by omega)

/-- A custom attribute / line property key-value pair. -/
structure AttributeKV where
  key : String
  value : String
deriving DecidableEq

/-- A cart line as consumed by `createDraftOrder` (only the fields the
function reads are modelled: variantId, quantity, properties). -/
structure CartLine where
  variantId : Option String
  quantity : Option Nat
  properties : Option (List AttributeKV)
deriving DecidableEq

/-- A draft order line-item input as built by `createDraftOrder`. -/
structure LineItemInput where
  variantId : Option String
  quantity : Option Nat
  customAttributes : Option (List AttributeKV)
deriving DecidableEq

/-- The per-line mapping of `createDraftOrder`: variantId and quantity pass
through; customAttributes are attached only when `properties` is present and
non-empty. -/
def buildLineItem (line : CartLine) : LineItemInput :=
  { variantId := line.variantId, quantity := line.quantity
    customAttributes :=
      match line.properties with
      | some props =>
        if 0 < props.length then some (props.map (fun p => { key := p.key, value := p.value }))
        else none
      | none => none }

/-- `hasAddressData` from draftOrder.service.js:
`!!(address1 || city || country || countryCode)`. -/
def hasAddressData (a : Address) : Bool :=
  decide (a.address1 ≠ "" ∨ a.city ≠ "" ∨ a.country ≠ "" ∨ a.countryCode ≠ "")

/-- `buildShopifyAddress` from draftOrder.service.js: copies each field only
when truthy; under the `""`-for-absent convention an omitted field is `""`. -/
def buildShopifyAddress (a : Address) : Address :=
  { firstName := if a.firstName ≠ "" then a.firstName else ""
    lastName := if a.lastName ≠ "" then a.lastName else ""
    company := if a.company ≠ "" then a.company else ""
    address1 := if a.address1 ≠ "" then a.address1 else ""
    address2 := if a.address2 ≠ "" then a.address2 else ""
    city := if a.city ≠ "" then a.city else ""
    province := if a.province ≠ "" then a.province else ""
    provinceCode := if a.provinceCode ≠ "" then a.provinceCode else ""
    country := if a.country ≠ "" then a.country else ""
    countryCode := if a.countryCode ≠ "" then a.countryCode else ""
    zip := if a.zip ≠ "" then a.zip else ""
    phone := if a.phone ≠ "" then a.phone else "" }

/-- An object carrying only an optional id (`purchasingEntity.company` /
`purchasingEntity.location` in the checkout payload). -/
structure IdRef where
  id : Option String
deriving DecidableEq

/-- The B2B purchasing entity reference of the checkout payload. -/
structure PurchasingEntityRef where
  company : Option IdRef
  location : Option IdRef
deriving DecidableEq

/-- The checkout data consumed by `createDraftOrder`. -/
structure CheckoutData where
  cartToken : Option String
  cartLines : Option (List CartLine)
  customer : Option Customer
  purchasingEntity : Option PurchasingEntityRef
  shippingAddress : Option Address
  billingAddress : Option Address
  note : Option String
deriving DecidableEq

/-- The purchasing-company block of a draft order input. -/
structure PurchasingCompanyInput where
  companyId : String
  companyLocationId : String
  companyContactId : Option String
deriving DecidableEq

/-- The draft order creation input built by `createDraftOrder`. -/
structure DraftOrderInput where
  lineItems : List LineItemInput
  email : Option String
  purchasingEntity : Option PurchasingCompanyInput
  shippingAddress : Option Address
  billingAddress : Option Address
  note : Option String
  tags : List String
deriving DecidableEq

/-- A company contact profile; `companyId` is `profile.company?.id` (absent
company or absent id both compare unequal to any concrete id). -/
structure ContactProfile where
  id : String
  companyId : Option String
deriving DecidableEq

/-- A platform user error `{field, message}`. -/
structure UserError where
  field : Option String
  message : String
deriving DecidableEq

/-- The shipping line of a draft order. -/
structure ShippingLine where
  title : String
  price : JsAmount
  taxLines : List TaxLine
deriving DecidableEq

/-- An applied discount block. -/
structure AppliedDiscount where
  title : String
  description : String
  value : Rat
  valueType : String
deriving DecidableEq

/-- The shop-money amount of a money set. -/
structure ShopMoney where
  amount : JsAmount
deriving DecidableEq

/-- A money set (`totalDiscountsSet`). -/
structure MoneySet where
  shopMoney : Option ShopMoney
deriving DecidableEq

/-- The purchasing entity selected on a returned draft order. -/
structure PurchasingEntityNode where
  company : Option Company
deriving DecidableEq

/-- A draft order as returned by the platform's create/fetch GraphQL
selection, before `formatDraftOrderResponse`. -/
structure RemoteDraftOrder where
  id : String
  name : Option String
  status : String
  invoiceUrl : Option String
  totalPrice : JsAmount
  subtotalPrice : JsAmount
  totalTax : JsAmount
  currencyCode : Option String
  taxLines : Option (List TaxLine)
  appliedDiscount : Option AppliedDiscount
  discountCodes : Option (List String)
  totalDiscountsSet : Option MoneySet
  shippingLine : Option ShippingLine
  createdAt : Option String
  updatedAt : Option String
  customer : Option Customer
  shippingAddress : Option Address
  billingAddress : Option Address
  lineItems : Option LineItemConnection
  purchasingEntity : Option PurchasingEntityNode
deriving DecidableEq

/-- The formatted draft order projection returned by the orchestrator
(`formatDraftOrderResponse`). -/
structure DraftOrderView where
  id : String
  name : Option String
  status : String
  invoiceUrl : Option String
  totalPrice : JsAmount
  subtotalPrice : JsAmount
  totalTax : JsAmount
  currencyCode : Option String
  taxLines : List TaxLine
  appliedDiscount : Option AppliedDiscount
  discountCodes : List String
  totalDiscountsSet : Option MoneySet
  shippingLine : Option ShippingLine
  createdAt : Option String
  updatedAt : Option String
  customer : Option Customer
  shippingAddress : Option Address
  billingAddress : Option Address
  lineItems : Option LineItemConnection
  company : Option Company
deriving DecidableEq

/-- `formatDraftOrderResponse` from draftOrder.service.js: a field-for-field
projection with `taxLines || []`, `discountCodes || []` and
`company := purchasingEntity?.company || null`. -/
def formatDraftOrderResponse (d : RemoteDraftOrder) : DraftOrderView :=
  { id := d.id, name := d.name, status := d.status, invoiceUrl := d.invoiceUrl
    totalPrice := d.totalPrice, subtotalPrice := d.subtotalPrice
    totalTax := d.totalTax, currencyCode := d.currencyCode
    taxLines := d.taxLines.getD []
    appliedDiscount := d.appliedDiscount
    discountCodes := d.discountCodes.getD []
    totalDiscountsSet := d.totalDiscountsSet
    shippingLine := d.shippingLine
    createdAt := d.createdAt, updatedAt := d.updatedAt
    customer := d.customer
    shippingAddress := d.shippingAddress, billingAddress := d.billingAddress
    lineItems := d.lineItems
    company :=
      match d.purchasingEntity with
      | some pe => pe.company
      | none => none }

/-- The payload of the `draftOrderCreate` mutation response. -/
structure DraftOrderCreatePayload where
  draftOrder : Option RemoteDraftOrder
  userErrors : List UserError
deriving DecidableEq

/-- The admin GraphQL client as seen by `createDraftOrder`: the
`draftOrderCreate` mutation (a `none` payload models an absent
`response.data?.draftOrderCreate`) and the `customerCompanyContacts` query.
A thrown request error is the `Except.error` case. -/
structure AdminEnv where
  draftOrderCreate : DraftOrderInput → Except String (Option DraftOrderCreatePayload)
  companyContacts : String → Except String (List ContactProfile)

/-- Which remote admin-API operations a run issued, in order. -/
inductive RemoteCall where
  | companyContactsQuery : RemoteCall
  | draftOrderCreateMutation : RemoteCall
deriving DecidableEq

/-- `fetchCompanyContactId` from draftOrder.service.js: best-effort lookup of
the contact profile matching `companyId`; any request failure is caught and
returns `none`. Always issues exactly one query. -/
def fetchCompanyContactId (env : AdminEnv) (customerId companyId : String) :
    Option String × List RemoteCall :=
  match env.companyContacts customerId with
  | .error _ => (none, [.companyContactsQuery])
  | .ok profiles =>
    match profiles.find? (fun p => decide (p.companyId = some companyId)) with
    | some p => (some p.id, [.companyContactsQuery])
    | none => (none, [.companyContactsQuery])

/-- `createDraftOrder` from draftOrder.service.js, returning the outcome and
the ordered list of remote admin-API calls issued. Sequencing mirrors the
source: configuration check, line-item validation, input building (with the
best-effort company-contact lookup), then the creation mutation whose
failures are wrapped by the surrounding try/catch. -/
def createDraftOrder (adminClient : Option AdminEnv) (data : CheckoutData) :
    Except String DraftOrderView × List RemoteCall :=
  match adminClient with
  | none => (.error "Admin API client not configured", [])
  | some env =>
    match data.cartLines with
    | none => (.error "No line items provided", [])
    | some lines =>
      if lines.length = 0 then (.error "No line items provided", [])
      else
        let lineItems := lines.map buildLineItem
        let email : Option String :=
          match data.customer with
          | some c => if c.email ≠ "" then some c.email else none
          | none => none
        let customerId : Option String :=
          match data.customer with
          | some c => if c.id ≠ "" then some c.id else none
          | none => none
        let companyId : Option String :=
          match data.purchasingEntity with
          | some pe =>
            match pe.company with
            | some c => c.id
            | none => none
          | none => none
        let locationId : Option String :=
          match data.purchasingEntity with
          | some pe =>
            match pe.location with
            | some l => l.id
            | none => none
          | none => none
        let purchasingAndCalls : Option PurchasingCompanyInput × List RemoteCall :=
          match companyId, locationId with
          | some cid, some lid =>
            if cid ≠ "" ∧ lid ≠ "" then
              match customerId with
              | some custId =>
                let fetched := fetchCompanyContactId env custId cid
                let contactId : Option String :=
                  match fetched.1 with
                  | some f => if f ≠ "" then some f else customerId
                  | none => customerId
                (some { companyId := cid, companyLocationId := lid
                        companyContactId := contactId }, fetched.2)
              | none =>
                (some { companyId := cid, companyLocationId := lid
                        companyContactId := none }, [])
            else (none, [])
          | _, _ => (none, [])
        let shippingAddress : Option Address :=
          match data.shippingAddress with
          | some a => if hasAddressData a then some (buildShopifyAddress a) else none
          | none => none
        let billingAddress : Option Address :=
          match data.billingAddress with
          | some a => if hasAddressData a then some (buildShopifyAddress a) else none
          | none => none
        let note : Option String :=
          match data.note with
          | some n => if n ≠ "" then some n else none
          | none => none
        let tags : List String :=
          "quote-request" ::
            (match data.cartToken with
             | some t => if t ≠ "" then ["cart-api"] else []
             | none => [])
        let input : DraftOrderInput :=
          { lineItems := lineItems, email := email
            purchasingEntity := purchasingAndCalls.1
            shippingAddress := shippingAddress, billingAddress := billingAddress
            note := note, tags := tags }
        let outcome : Except String DraftOrderView :=
          match env.draftOrderCreate input with
          | .error msg => .error ("Failed to create draft order: " ++ msg)
          | .ok respData =>
            match respData with
            | none =>
              .error "Failed to create draft order: Draft order creation failed: No draft order returned"
            | some payload =>
              if 0 < payload.userErrors.length then
                .error ("Failed to create draft order: Draft order creation failed: "
                  ++ String.intercalate ", " (payload.userErrors.map (fun e => e.message)))
              else
                match payload.draftOrder with
                | none =>
                  .error "Failed to create draft order: Draft order creation failed: No draft order returned"
                | some d => .ok (formatDraftOrderResponse d)
        (outcome, purchasingAndCalls.2 ++ [.draftOrderCreateMutation])

/-- A remote file's processing status. -/
inductive FileStatus where
  | uploaded : FileStatus
  | processing : FileStatus
  | ready : FileStatus
  | failed : FileStatus
deriving DecidableEq

/-- A platform file error `{code, message}`. -/
structure FileError where
  code : String
  message : String
deriving DecidableEq

/-- The GenericFile node returned by the status-poll query. -/
structure FileNode where
  id : String
  fileStatus : FileStatus
  url : Option String
  fileErrors : List FileError
deriving DecidableEq

/-- The loop's first guard, `file?.fileStatus === 'READY' && file?.url`:
the URL of a READY node whose url is present and truthy. -/
def readyUrl (node : Option FileNode) : Option String :=
  match node with
  | some f =>
    match f.fileStatus, f.url with
    | .ready, some u => if u ≠ "" then some u else none
    | _, _ => none
  | none => none

/-- The loop's second guard, `file?.fileStatus === 'FAILED'`. -/
def nodeFailed (node : Option FileNode) : Bool :=
  match node with
  | some f => decide (f.fileStatus = .failed)
  | none => false

/-- The FAILED error detail string:
`file?.fileErrors?.map(e => code + ": " + message).join(', ') || 'Unknown error'`. -/
def failureDetails (node : Option FileNode) : String :=
  let joined : String :=
    match node with
    | some f => String.intercalate ", " (f.fileErrors.map (fun e => e.code ++ ": " ++ e.message))
    | none => ""
  "File processing failed: " ++ (if joined ≠ "" then joined else "Unknown error")

/-- The two errors `waitForFileUrl` can throw, carrying the data interpolated
into the thrown messages: `processingFailed` carries the full
"File processing failed: ..." detail; `timedOut` carries the file id, the
attempt count (`maxRetries`) and the elapsed budget `maxRetries * delayMs`
in milliseconds reported by the timeout message. -/
inductive WaitError where
  | processingFailed (details : String) : WaitError
  | timedOut (fileId : String) (maxRetries : Nat) (budgetMs : Nat) : WaitError
deriving DecidableEq

/-- The `while (attempts < maxRetries)` polling loop of `waitForFileUrl`,
indexed by the remaining attempt budget (`maxRetries - attempts`).
`poll k` is the node returned by the k-th status query (0-based). Returns the
outcome together with the number of polls actually performed. -/
def waitLoop (poll : Nat → Option FileNode) (fileId : String)
    (maxRetries delayMs attempts : Nat) : Nat → Except WaitError String × Nat
  | 0 => (.error (.timedOut fileId maxRetries (maxRetries * delayMs)), attempts)
  | remaining + 1 =>
    match readyUrl (poll attempts) with
    | some u => (.ok u, attempts + 1)
    | none =>
      if nodeFailed (poll attempts) then
        (.error (.processingFailed (failureDetails (poll attempts))), attempts + 1)
      else
        waitLoop poll fileId maxRetries delayMs (attempts + 1) remaining

/-- `waitForFileUrl` from the Shopify file service: poll from attempt 0 with
the full `maxRetries` budget. -/
def waitForFileUrl (poll : Nat → Option FileNode) (fileId : String)
    (maxRetries delayMs : Nat) : Except WaitError String × Nat :=
  waitLoop poll fileId maxRetries delayMs 0 maxRetries

/-- A non-terminal poll response: neither READY-with-url nor FAILED
(UPLOADED, PROCESSING, a missing node, or READY without a usable url). -/
def nonTerminal (node : Option FileNode) : Prop :=
  readyUrl node = none ∧ nodeFailed node = false

instance (node : Option FileNode) : Decidable (nonTerminal node) := by
  unfold nonTerminal; infer_instance

/-- The invoice number recomputed inline by `generateAndAttachPdf`:
`draftOrder.name ? "INV-EE-" + name.replace(/[^0-9]/g, '') : "INV-EE-" + Date.now()`.
Replacing every non-digit with the empty string concatenates all digit runs of
the name, and the fallback uses the full timestamp, unlike
`generateInvoiceNumber`. -/
def filenameInvoiceNumber (name : Option String) (now : Nat) : String :=
  match name with
  | some s =>
    if s ≠ "" then "INV-EE-" ++ String.mk (s.data.filter Char.isDigit)
    else "INV-EE-" ++ Nat.repr now
  | none => "INV-EE-" ++ Nat.repr now

/-- The filename `generateAndAttachPdf` passes to `uploadPdf`:
`vat_invoice_{invoiceNumber}.pdf`. -/
def pdfFilename (name : Option String) (now : Nat) : String :=
  "vat_invoice_" ++ filenameInvoiceNumber name now ++ ".pdf"

/-- The uploaded file record returned by `uploadPdf` (already carrying the
ready URL). -/
structure UploadedFile where
  id : String
  url : String
deriving DecidableEq

/-- The three fallible collaborator steps of `generateAndAttachPdf`:
PDF generation (render pipeline), `uploadPdf buffer filename alt`, and
`attachFileToDraftOrder draftOrderId fileUrl`. A thrown error is the
`Except.error` case. -/
structure PdfWorkflowSteps where
  generateInvoicePdf : DraftOrderView → Option CheckoutData → Except String (List Nat)
  uploadPdf : List Nat → String → String → Except String UploadedFile
  attachFileToDraftOrder : String → String → Except String Unit

/-- The result object of `generateAndAttachPdf`. -/
structure PdfResult where
  status : String
  url : Option String
deriving DecidableEq

/-- The body of `generateAndAttachPdf`'s try block: generate the PDF, derive
the filename, upload (the upload's result carries the ready file URL), attach
the URL to the draft order, and yield the URL. -/
def runPdfWorkflow (steps : PdfWorkflowSteps) (draftOrder : DraftOrderView)
    (payload : Option CheckoutData) (now : Nat) : Except String String :=
  match steps.generateInvoicePdf draftOrder payload with
  | .error e => .error e
  | .ok pdfBuffer =>
    match steps.uploadPdf pdfBuffer (pdfFilename draftOrder.name now)
        ("VAT Invoice " ++ filenameInvoiceNumber draftOrder.name now) with
    | .error e => .error e
    | .ok file =>
      match steps.attachFileToDraftOrder draftOrder.id file.url with
      | .error e => .error e
      | .ok _ => .ok file.url

/-- `generateAndAttachPdf` from the invoice PDF service: the try/catch
wrapper mapping a successful workflow to `{status: "completed", url}` and any
thrown step error to `{status: "pdf_failed", url: null}`. -/
def generateAndAttachPdf (steps : PdfWorkflowSteps) (draftOrder : DraftOrderView)
    (payload : Option CheckoutData) (now : Nat) : PdfResult :=
  match runPdfWorkflow steps draftOrder payload now with
  | .ok url => { status := "completed", url := some url }
  | .error _ => { status := "pdf_failed", url := none }

/-- A schedule of poll responses reporting PROCESSING for the first nine
polls and READY with a URL on the tenth. -/
def pollReadyOnTenth (k : Nat) : Option FileNode :=
  if k < 9 then
    some { id := "gid-file-1", fileStatus := .processing, url := none, fileErrors := [] }
  else
    some { id := "gid-file-1", fileStatus := .ready
           url := some "https://cdn.example/invoice.pdf", fileErrors := [] }

/-- A schedule of poll responses that never reaches a terminal state. -/
def pollNeverTerminal (_ : Nat) : Option FileNode :=
  some { id := "gid-file-2", fileStatus := .uploaded, url := none, fileErrors := [] }

/-- An admin environment whose remote calls all fail (a network error),
adequate as a concrete environment for claims about paths that must issue no
remote call. -/
def adminEnvDown : AdminEnv :=
  { draftOrderCreate := fun _ => .error "network down"
    companyContacts := fun _ => .error "network down" }

/-- A checkout payload carrying an explicitly empty cart-line list. -/
def checkoutNoLines : CheckoutData :=
  { cartToken := none, cartLines := some [], customer := none
    purchasingEntity := none, shippingAddress := none, billingAddress := none
    note := none }

/-- A minimal formatted draft order used as a concrete workflow input. -/
def draftOrderSample : DraftOrderView :=
  { id := "gid-draft-1", name := some "#D123", status := "OPEN", invoiceUrl := none
    totalPrice := .str "12.00", subtotalPrice := .str "10.00", totalTax := .str "2.00"
    currencyCode := some "EUR", taxLines := [], appliedDiscount := none
    discountCodes := [], totalDiscountsSet := none, shippingLine := none
    createdAt := none, updatedAt := none, customer := none
    shippingAddress := none, billingAddress := none, lineItems := none
    company := none }

/-- Workflow steps in which every collaborator succeeds. -/
def stepsAllOk : PdfWorkflowSteps :=
  { generateInvoicePdf := fun _ _ => .ok [37, 80, 68, 70]
    uploadPdf := fun _ _ _ => .ok { id := "gid-file-9", url := "https://cdn.example/ok.pdf" }
    attachFileToDraftOrder := fun _ _ => .ok () }

/-- Workflow steps in which the PDF renderer throws. -/
def stepsRenderFails : PdfWorkflowSteps :=
  { generateInvoicePdf := fun _ _ => .error "Invoice PDF generation failed: boom"
    uploadPdf := fun _ _ _ => .ok { id := "gid-file-9", url := "https://cdn.example/ok.pdf" }
    attachFileToDraftOrder := fun _ _ => .ok () }

/-- A processed line item with a zero VAT rate (a zero-rated product). -/
def itemVatZero : InvoiceLineItem :=
  { description := "Book", title := "Book", variantTitle := "", sku := ""
    quantity := 1, unitPrice := "€10.00", unitPriceRaw := 10
    vatRate := 0, vatRateFormatted := "0%", amount := "€10.00", amountRaw := 10 }

/-- A processed line item with a 20% VAT rate. -/
def itemVatTwenty : InvoiceLineItem :=
  { description := "Lamp", title := "Lamp", variantTitle := "", sku := ""
    quantity := 2, unitPrice := "€5.00", unitPriceRaw := 5
    vatRate := mkRat 1 5, vatRateFormatted := "20%", amount := "€10.00", amountRaw := 10 }

/-- A line-item edge with an absent (zero) quantity and a string unit price. -/
def edgeSample : LineItemEdge :=
  { node := { id := "gid-li-1", title := "Lamp", quantity := 0
              originalUnitPrice := .str "10.00"
              taxLines := [{ title := "VAT", rate := mkRat 6 25, price := .str "2.40" }]
              variant := none } }

/-- A one-edge line-items connection. -/
def connSample : LineItemConnection := { edges := some [edgeSample] }

/-! ## Theorems -/

theorem jsOr_empty_right (a : String) : jsOr a "" = a := by
  unfold jsOr; split <;> simp_all

/-- C7: `mergeAddress` merges field by field, never wholesale: every field of
the result is the primary's field when non-empty, else the fallback's field
when non-empty, else the empty string; in particular merging
`{address1:"A"}` over `{address1:"B", city:"C"}` keeps `address1 = "A"`,
takes `city = "C"` and takes every other field from the fallback (here empty). -/
theorem mergeAddress_fieldwise (p f : Address) :
    (∀ proj ∈ addressFields,
      proj (mergeAddress p f) =
        (if proj p ≠ "" then proj p else if proj f ≠ "" then proj f else "")) ∧
    mergeAddress { Address.empty with address1 := "A" }
        { Address.empty with address1 := "B", city := "C" }
      = { Address.empty with address1 := "A", city := "C" } := by
  constructor
  · intro proj hproj
    fin_cases hproj <;> simp only [mergeAddress, jsOr]
  · decide

/-- Witness for C7 at the concrete pair of addresses from the specification. -/
theorem mergeAddress_fieldwise_witness :
    (mergeAddress { Address.empty with address1 := "A" }
        { Address.empty with address1 := "B", city := "C" }).city = "C" := by
  have h := (mergeAddress_fieldwise
    { Address.empty with address1 := "A" }
    { Address.empty with address1 := "B", city := "C" }).1 Address.city
    (by unfold addressFields
        exact List.mem_cons_of_mem _ (List.mem_cons_of_mem _ (List.mem_cons_of_mem _
          (List.mem_cons_of_mem _ (List.mem_cons_self _ _)))))
  simpa using h

/-- C3: with the admin client configured, `createDraftOrder` on a payload
whose cart lines are absent or empty fails with the validation message
"No line items provided" and issues no remote call at all (in particular the
draft-order-create mutation is never submitted). -/
theorem createDraftOrder_no_line_items (env : AdminEnv) (data : CheckoutData)
    (h : data.cartLines = none ∨ data.cartLines = some []) :
    createDraftOrder (some env) data = (.error "No line items provided", []) := by
  rcases h with h | h <;> simp [createDraftOrder, h]

/-- Witness for C3: the empty-cart payload against a concrete environment. -/
theorem createDraftOrder_no_line_items_witness :
    createDraftOrder (some adminEnvDown) checkoutNoLines
      = (.error "No line items provided", []) :=
  createDraftOrder_no_line_items adminEnvDown checkoutNoLines (Or.inr rfl)

/-- C1: `generateAndAttachPdf` never lets an exception escape: its result is
always either `{status:"completed", url}` or `{status:"pdf_failed", url:null}`;
when PDF generation, upload and metafield attachment all succeed it returns
completed with the uploaded file's URL, and when the step chain fails it
returns pdf_failed with a null URL. -/
theorem generateAndAttachPdf_total (steps : PdfWorkflowSteps) (d : DraftOrderView)
    (p : Option CheckoutData) (now : Nat) :
    ((∃ u, generateAndAttachPdf steps d p now = { status := "completed", url := some u })
      ∨ generateAndAttachPdf steps d p now = { status := "pdf_failed", url := none }) ∧
    (∀ pdf file, steps.generateInvoicePdf d p = .ok pdf →
      steps.uploadPdf pdf (pdfFilename d.name now)
          ("VAT Invoice " ++ filenameInvoiceNumber d.name now) = .ok file →
      steps.attachFileToDraftOrder d.id file.url = .ok () →
      generateAndAttachPdf steps d p now = { status := "completed", url := some file.url }) ∧
    (∀ e, runPdfWorkflow steps d p now = .error e →
      generateAndAttachPdf steps d p now = { status := "pdf_failed", url := none }) := by
  refine ⟨?_, ?_, ?_⟩
  · cases hrun : runPdfWorkflow steps d p now with
    | ok u => exact Or.inl ⟨u, by simp [generateAndAttachPdf, hrun]⟩
    | error e => exact Or.inr (by simp [generateAndAttachPdf, hrun])
  · intro pdf file h1 h2 h3
    simp [generateAndAttachPdf, runPdfWorkflow, h1, h2, h3]
  · intro e herr
    simp [generateAndAttachPdf, herr]

/-- Witness for C1: an all-success step set yields completed with the file's
URL; a failing renderer yields pdf_failed with a null URL. -/
theorem generateAndAttachPdf_total_witness :
    generateAndAttachPdf stepsAllOk draftOrderSample none 0
      = { status := "completed", url := some "https://cdn.example/ok.pdf" } ∧
    generateAndAttachPdf stepsRenderFails draftOrderSample none 0
      = { status := "pdf_failed", url := none } :=
  ⟨(generateAndAttachPdf_total stepsAllOk draftOrderSample none 0).2.1
      [37, 80, 68, 70] { id := "gid-file-9", url := "https://cdn.example/ok.pdf" } rfl rfl rfl,
   (generateAndAttachPdf_total stepsRenderFails draftOrderSample none 0).2.2
      "Invoice PDF generation failed: boom" rfl⟩

/-- C6 counterexample: for the draft order name "#D12-3" the filename passed
to the uploader is `vat_invoice_INV-EE-123.pdf` (all digit characters of the
name concatenated), which is not `vat_invoice_` followed by the step-1
invoice number `INV-EE-12` (first digit run only): the two derivations are
not the same. -/
theorem pdfFilename_ne_step1_number :
    pdfFilename (some "#D12-3") 0
      ≠ "vat_invoice_" ++ generateInvoiceNumber (some "#D12-3") "INV-EE-" 0 ++ ".pdf" := by
  decide

/-- C6 (amended): the filename passed to the uploader is
`vat_invoice_{n}.pdf` where `n` is "INV-EE-" followed by every digit
character of the draft order name concatenated in order (or "INV-EE-"
followed by the full timestamp when the name is absent or empty); `n`
coincides with the step-1 invoice number under the default prefix exactly
when all the name's digits form its first digit run, as for "#D123". -/
theorem pdfFilename_spec (s : String) (now : Nat) :
    (s ≠ "" → pdfFilename (some s) now
      = "vat_invoice_INV-EE-" ++ String.mk (s.data.filter Char.isDigit) ++ ".pdf") ∧
    pdfFilename none now = "vat_invoice_INV-EE-" ++ Nat.repr now ++ ".pdf" ∧
    pdfFilename (some "") now = "vat_invoice_INV-EE-" ++ Nat.repr now ++ ".pdf" ∧
    (∀ ds, firstDigitRun s.data = some ds → s.data.filter Char.isDigit = ds →
      pdfFilename (some s) now
        = "vat_invoice_" ++ generateInvoiceNumber (some s) "INV-EE-" now ++ ".pdf") := by
  refine ⟨?_, ?_, ?_, ?_⟩
  · intro hs
    simp only [pdfFilename, filenameInvoiceNumber, if_pos hs]
    rfl
  · rfl
  · simp only [pdfFilename, filenameInvoiceNumber]
    rw [if_neg (by simp)]
    rfl
  · intro ds hrun hfilter
    have hs : s ≠ "" := by
      intro hcon
      rw [hcon] at hrun
      simp [firstDigitRun] at hrun
    simp only [pdfFilename, filenameInvoiceNumber, generateInvoiceNumber, if_pos hs, hrun,
      hfilter]

/-- Witness for C6 at the draft order name "#D123", whose digits form a
single run, and at an absent name. -/
theorem pdfFilename_spec_witness :
    pdfFilename (some "#D123") 1728312345678
      = "vat_invoice_" ++ generateInvoiceNumber (some "#D123") "INV-EE-" 1728312345678 ++ ".pdf" ∧
    pdfFilename none 1728312345678 = "vat_invoice_INV-EE-1728312345678.pdf" :=
  ⟨(pdfFilename_spec "#D123" 1728312345678).2.2.2 (String.toList "123") (by decide) (by decide),
   ((pdfFilename_spec "#D123" 1728312345678).2.1).trans (by decide)⟩

theorem readyUrl_eq_none_of_failed (node : Option FileNode)
    (h : nodeFailed node = true) : readyUrl node = none := by
  cases node with
  | none => rfl
  | some f =>
    have hst : f.fileStatus = .failed := by
      simpa [nodeFailed] using h
    simp [readyUrl, hst]

theorem waitLoop_polls_le (poll : Nat → Option FileNode) (fileId : String)
    (m d : Nat) : ∀ rem att, (waitLoop poll fileId m d att rem).2 ≤ att + rem := by
  intro rem
  induction rem with
  | zero => intro att; simp [waitLoop]
  | succ rem ih =>
    intro att
    unfold waitLoop
    cases hr : readyUrl (poll att) with
    | some u => simp
    | none =>
      simp only
      split
      · simp
      · calc (waitLoop poll fileId m d (att + 1) rem).2 ≤ att + 1 + rem := ih (att + 1)
          _ = att + (rem + 1) := by omega

theorem waitLoop_ready (poll : Nat → Option FileNode) (fileId : String) (m d : Nat) :
    ∀ rem att k u, att ≤ k → k < att + rem →
      (∀ j, att ≤ j → j < k → nonTerminal (poll j)) →
      readyUrl (poll k) = some u →
      waitLoop poll fileId m d att rem = (.ok u, k + 1) := by
  intro rem
  induction rem with
  | zero => intro att k u hak hlt; omega
  | succ rem ih =>
    intro att k u hak hlt hnt hready
    unfold waitLoop
    rcases Nat.eq_or_lt_of_le hak with heq | hgt
    · subst heq
      simp [hready]
    · have hcur := hnt att (Nat.le_refl att) hgt
      rw [hcur.1]
      simp only [hcur.2]
      rw [if_neg (by simp)]
      exact ih (att + 1) k u hgt (by omega) (fun j hj1 hj2 => hnt j (by omega) hj2) hready

theorem waitLoop_failed (poll : Nat → Option FileNode) (fileId : String) (m d : Nat) :
    ∀ rem att k, att ≤ k → k < att + rem →
      (∀ j, att ≤ j → j < k → nonTerminal (poll j)) →
      nodeFailed (poll k) = true →
      waitLoop poll fileId m d att rem
        = (.error (.processingFailed (failureDetails (poll k))), k + 1) := by
  intro rem
  induction rem with
  | zero => intro att k hak hlt; omega
  | succ rem ih =>
    intro att k hak hlt hnt hfail
    unfold waitLoop
    rcases Nat.eq_or_lt_of_le hak with heq | hgt
    · subst heq
      rw [readyUrl_eq_none_of_failed _ hfail]
      simp [hfail]
    · have hcur := hnt att (Nat.le_refl att) hgt
      rw [hcur.1]
      simp only [hcur.2]
      rw [if_neg (by simp)]
      exact ih (att + 1) k hgt (by omega) (fun j hj1 hj2 => hnt j (by omega) hj2) hfail

theorem waitLoop_timeout (poll : Nat → Option FileNode) (fileId : String) (m d : Nat) :
    ∀ rem att, (∀ j, att ≤ j → j < att + rem → nonTerminal (poll j)) →
      waitLoop poll fileId m d att rem
        = (.error (.timedOut fileId m (m * d)), att + rem) := by
  intro rem
  induction rem with
  | zero => intro att _; simp [waitLoop]
  | succ rem ih =>
    intro att hnt
    unfold waitLoop
    have hcur := hnt att (Nat.le_refl att) (by omega)
    rw [hcur.1]
    simp only [hcur.2]
    rw [if_neg (by simp)]
    rw [ih (att + 1) (fun j hj1 hj2 => hnt j (by omega) (by omega))]
    congr 1
    omega

/-- C2: `waitForFileUrl` polls at most `maxRetries` times; if the first
terminal poll (all earlier polls non-terminal) reports READY with a URL it
returns that URL, if it reports FAILED it fails with the file-processing
error citing the platform error codes, and if every poll within the budget
is non-terminal it fails with the timeout error carrying the attempt count
`maxRetries` and the elapsed budget `maxRetries * delayMs`. -/
theorem waitForFileUrl_spec (poll : Nat → Option FileNode) (fileId : String)
    (maxRetries delayMs : Nat) :
    (waitForFileUrl poll fileId maxRetries delayMs).2 ≤ maxRetries ∧
    (∀ k u, k < maxRetries → (∀ j, j < k → nonTerminal (poll j)) →
      readyUrl (poll k) = some u →
      waitForFileUrl poll fileId maxRetries delayMs = (.ok u, k + 1)) ∧
    (∀ k, k < maxRetries → (∀ j, j < k → nonTerminal (poll j)) →
      nodeFailed (poll k) = true →
      waitForFileUrl poll fileId maxRetries delayMs
        = (.error (.processingFailed (failureDetails (poll k))), k + 1)) ∧
    ((∀ j, j < maxRetries → nonTerminal (poll j)) →
      waitForFileUrl poll fileId maxRetries delayMs
        = (.error (.timedOut fileId maxRetries (maxRetries * delayMs)), maxRetries)) := by
  refine ⟨?_, ?_, ?_, ?_⟩
  · simpa using waitLoop_polls_le poll fileId maxRetries delayMs maxRetries 0
  · intro k u hk hnt hready
    exact waitLoop_ready poll fileId maxRetries delayMs maxRetries 0 k u (Nat.zero_le k)
      (by omega) (fun j _ hj2 => hnt j hj2) hready
  · intro k hk hnt hfail
    exact waitLoop_failed poll fileId maxRetries delayMs maxRetries 0 k (Nat.zero_le k)
      (by omega) (fun j _ hj2 => hnt j hj2) hfail
  · intro hnt
    simpa using waitLoop_timeout poll fileId maxRetries delayMs maxRetries 0
      (fun j _ hj2 => hnt j (by omega))

/-- Witness for C2: a file reporting PROCESSING for nine polls and READY on
the tenth yields the URL after ten polls; with `maxRetries = 2` a file that
never reaches a terminal state times out after exactly two polls, reporting
the 2000 ms budget. -/
theorem waitForFileUrl_spec_witness :
    waitForFileUrl pollReadyOnTenth "gid-file-1" 10 1000
      = (.ok "https://cdn.example/invoice.pdf", 10) ∧
    waitForFileUrl pollNeverTerminal "gid-file-2" 2 1000
      = (.error (.timedOut "gid-file-2" 2 2000), 2) :=
  ⟨(waitForFileUrl_spec pollReadyOnTenth "gid-file-1" 10 1000).2.1 9
      "https://cdn.example/invoice.pdf" (by decide)
      (fun j hj => by
        simp only [pollReadyOnTenth, if_pos hj]
        decide)
      (by decide),
   (waitForFileUrl_spec pollNeverTerminal "gid-file-2" 2 1000).2.2.2
      (fun j _ => by simp only [pollNeverTerminal]; decide)⟩

theorem find_pos_eq_find_nonzero (items : List InvoiceLineItem)
    (h : ∀ i ∈ items, 0 ≤ i.vatRate) :
    items.find? (fun item => decide (0 < item.vatRate))
      = items.find? (fun item => decide (item.vatRate ≠ 0)) := by
  induction items with
  | nil => rfl
  | cons a t ih =>
    have ha : 0 ≤ a.vatRate := h a (List.mem_cons_self a t)
    have ht : ∀ i ∈ t, 0 ≤ i.vatRate := fun i hi => h i (List.mem_cons_of_mem a hi)
    by_cases h0 : a.vatRate = 0
    · simp [List.find?_cons, h0, ih ht]
    · have hpos : 0 < a.vatRate := lt_of_le_of_ne ha (Ne.symm h0)
      simp [List.find?_cons, h0, hpos]

/-- C4: for nonnegative per-line VAT rates (as delivered by the platform),
the primary document VAT rate is the rate of the first line item with a
nonzero rate; when no line item has a nonzero rate it is the first
order-level tax line's rate, and with no order-level tax lines either it is
the hardcoded regional default 0.24. -/
theorem getPrimaryVatRate_spec (items : List InvoiceLineItem) (orderTaxLines : List TaxLine)
    (h : ∀ i ∈ items, 0 ≤ i.vatRate) :
    getPrimaryVatRate items orderTaxLines =
      match items.find? (fun item => decide (item.vatRate ≠ 0)) with
      | some item => item.vatRate
      | none =>
        match orderTaxLines with
        | t :: _ => t.rate
        | [] => 24 / 100 := by
  unfold getPrimaryVatRate
  rw [find_pos_eq_find_nonzero items h]

/-- Witness for C4: a zero-rated item followed by a 20% item yields 20%,
skipping the zero-rate line; with no items and no tax lines the default is
24%. -/
theorem getPrimaryVatRate_spec_witness :
    getPrimaryVatRate [itemVatZero, itemVatTwenty] [] = mkRat 1 5 ∧
    getPrimaryVatRate [] [] = 24 / 100 :=
  ⟨(getPrimaryVatRate_spec [itemVatZero, itemVatTwenty] [] (by decide)).trans (by decide),
   (getPrimaryVatRate_spec [] [] (fun i hi => by cases hi)).trans rfl⟩

/-- C9: the invoice display name prefers the address's firstName+lastName
(both present), falls back to the customer's firstName+lastName (both
present), and falls back to the literal "Customer"; the displayed company
name prefers a non-empty `Company.name` over the address's `company` field,
and is empty when both are absent. The same preference chain holds when the
address itself is missing (skipping the address step). -/
theorem formatInvoiceAddress_prefers (addr : Address) (customer : Option Customer)
    (company : Option Company) :
    (addr.firstName ≠ "" → addr.lastName ≠ "" →
      (formatInvoiceAddress (some addr) customer company).name
        = jsTrim (addr.firstName ++ " " ++ addr.lastName)) ∧
    ((addr.firstName = "" ∨ addr.lastName = "") → ∀ c, customer = some c →
      c.firstName ≠ "" → c.lastName ≠ "" →
      (formatInvoiceAddress (some addr) customer company).name
        = jsTrim (c.firstName ++ " " ++ c.lastName)) ∧
    ((addr.firstName = "" ∨ addr.lastName = "") →
      (∀ c, customer = some c → c.firstName = "" ∨ c.lastName = "") →
      (formatInvoiceAddress (some addr) customer company).name = "Customer") ∧
    (∀ c, customer = some c → c.firstName ≠ "" → c.lastName ≠ "" →
      (formatInvoiceAddress none customer company).name
        = jsTrim (c.firstName ++ " " ++ c.lastName)) ∧
    ((∀ c, customer = some c → c.firstName = "" ∨ c.lastName = "") →
      (formatInvoiceAddress none customer company).name = "Customer") ∧
    (∀ co, company = some co → co.name ≠ "" →
      (formatInvoiceAddress (some addr) customer company).companyName = co.name ∧
      (formatInvoiceAddress none customer company).companyName = co.name) ∧
    ((company = none ∨ company = some { name := "" }) →
      (formatInvoiceAddress (some addr) customer company).companyName = addr.company ∧
      (formatInvoiceAddress none customer company).companyName = "") := by
  refine ⟨?_, ?_, ?_, ?_, ?_, ?_, ?_⟩
  · intro h1 h2
    simp [formatInvoiceAddress, h1, h2]
  · intro hmiss c hc h1 h2
    subst hc
    have : ¬ (addr.firstName ≠ "" ∧ addr.lastName ≠ "") := by tauto
    simp [formatInvoiceAddress, this, h1, h2]
  · intro hmiss hcust
    have hna : ¬ (addr.firstName ≠ "" ∧ addr.lastName ≠ "") := by tauto
    cases customer with
    | none => simp [formatInvoiceAddress, hna]
    | some c =>
      have := hcust c rfl
      have hnc : ¬ (c.firstName ≠ "" ∧ c.lastName ≠ "") := by tauto
      simp only [formatInvoiceAddress, if_neg hna, if_neg hnc]
  · intro c hc h1 h2
    subst hc
    simp [formatInvoiceAddress, h1, h2]
  · intro hcust
    cases customer with
    | none => simp [formatInvoiceAddress]
    | some c =>
      have := hcust c rfl
      have hnc : ¬ (c.firstName ≠ "" ∧ c.lastName ≠ "") := by tauto
      simp only [formatInvoiceAddress, if_neg hnc]
  · intro co hco hname
    subst hco
    constructor
    · simp [formatInvoiceAddress, jsOr, hname]
    · simp [formatInvoiceAddress]
  · intro hco
    rcases hco with hco | hco <;> subst hco
    · constructor
      · simp only [formatInvoiceAddress, jsOr_empty_right]
        simp [jsOr]
      · simp [formatInvoiceAddress]
    · constructor
      · simp only [formatInvoiceAddress, jsOr_empty_right]
        simp [jsOr]
      · simp [formatInvoiceAddress]

/-- Witness for C9: an address with both names set wins over the customer;
a company name wins over the address's company field; with nothing present
the name is the literal "Customer" and the company name is empty. -/
theorem formatInvoiceAddress_prefers_witness :
    (formatInvoiceAddress
        (some { Address.empty with firstName := "Jane", lastName := "Doe", company := "Acme" })
        (some { id := "", email := "", firstName := "Bob", lastName := "Roe" })
        (some { name := "Globex" })).name = "Jane Doe" ∧
    (formatInvoiceAddress
        (some { Address.empty with firstName := "Jane", lastName := "Doe", company := "Acme" })
        none (some { name := "Globex" })).companyName = "Globex" ∧
    (formatInvoiceAddress none none none).name = "Customer" ∧
    (formatInvoiceAddress none none none).companyName = "" := by
  refine ⟨?_, ?_, ?_, ?_⟩
  · have h := (formatInvoiceAddress_prefers
      { Address.empty with firstName := "Jane", lastName := "Doe", company := "Acme" }
      (some { id := "", email := "", firstName := "Bob", lastName := "Roe" })
      (some { name := "Globex" })).1 (by decide) (by decide)
    rw [h]; decide
  · exact ((formatInvoiceAddress_prefers
      { Address.empty with firstName := "Jane", lastName := "Doe", company := "Acme" }
      none (some { name := "Globex" })).2.2.2.2.2.1 { name := "Globex" } rfl (by decide)).1
  · exact (formatInvoiceAddress_prefers Address.empty none none).2.2.2.2.1
      (fun c hc => by cases hc)
  · exact ((formatInvoiceAddress_prefers Address.empty none none).2.2.2.2.2.2
      (Or.inl rfl)).2

/-- C10: `processInvoiceLineItems` returns one entry per edge in order; each
entry's quantity defaults to 1 when the node's quantity is absent or zero,
its `unitPriceRaw` is the parsed original unit price (0 when absent or
unparseable, by `parseAmount`), and its `amountRaw` is `unitPriceRaw`
times that quantity; an absent connection or absent `edges` field yields the
empty list rather than a failure. -/
theorem processInvoiceLineItems_shape (symbol : String) :
    processInvoiceLineItems none symbol = [] ∧
    (∀ conn, conn.edges = none → processInvoiceLineItems (some conn) symbol = []) ∧
    (∀ conn edges, conn.edges = some edges →
      (processInvoiceLineItems (some conn) symbol).length = edges.length ∧
      (∀ i, i < edges.length →
        ∃ item edge,
          (processInvoiceLineItems (some conn) symbol)[i]? = some item ∧
          edges[i]? = some edge ∧
          item.quantity = (if edge.node.quantity = 0 then 1 else edge.node.quantity) ∧
          item.unitPriceRaw = parseAmount edge.node.originalUnitPrice ∧
          item.amountRaw = item.unitPriceRaw * (item.quantity : Rat))) ∧
    parseAmount .missing = 0 ∧
    (∀ s, parseFloatChars s.data = none → parseAmount (.str s) = 0) := by
  refine ⟨rfl, ?_, ?_, rfl, ?_⟩
  · intro conn h
    simp [processInvoiceLineItems, h]
  · intro conn edges h
    constructor
    · simp [processInvoiceLineItems, h]
    · intro i hi
      refine ⟨processLineItemNode symbol (edges.get ⟨i, hi⟩).node, edges.get ⟨i, hi⟩,
        ?_, List.getElem?_eq_getElem hi, ?_, ?_, ?_⟩
      · have hmap : processInvoiceLineItems (some conn) symbol
            = edges.map (fun e => processLineItemNode symbol e.node) := by
          simp [processInvoiceLineItems, h]
        rw [hmap, List.getElem?_map, List.getElem?_eq_getElem hi]
        rfl
      · simp [processLineItemNode]
      · simp [processLineItemNode]
      · simp [processLineItemNode]
  · intro s hparse
    simp [parseAmount, hparse]

/-- Witness for C10: the one-edge sample connection yields exactly one
processed entry. -/
theorem processInvoiceLineItems_shape_witness :
    (processInvoiceLineItems (some connSample) "€").length = 1 :=
  (((processInvoiceLineItems_shape "€").2.2.1 connSample [edgeSample] rfl).1).trans rfl

theorem digitChar_isDigit (k : Nat) (h : k < 10) : (Nat.digitChar k).isDigit = true := by
  interval_cases k <;> decide

theorem toDigitsCore_eq_decChars :
    ∀ (fuel n : Nat) (acc : List Char), n < fuel →
      Nat.toDigitsCore 10 fuel n acc = decChars n ++ acc := by
  intro fuel
  induction fuel with
  | zero => intro n acc h; omega
  | succ fuel ih =>
    intro n acc h
    rw [Nat.toDigitsCore]
    by_cases h10 : n / 10 = 0
    · have hn : n < 10 := (Nat.div_eq_zero_iff (by omega)).mp h10
      rw [if_pos h10, decChars, if_pos hn, Nat.mod_eq_of_lt hn]
      rfl
    · have hn : ¬ n < 10 := by
        intro hcon
        exact h10 (Nat.div_eq_of_lt hcon)
      have hlt : n / 10 < fuel := by
        have h1 : n / 10 < n := Nat.div_lt_self (by omega) (by omega)
        omega
      rw [if_neg h10, ih (n / 10) (Nat.digitChar (n % 10) :: acc) hlt]
      conv_rhs => rw [decChars, if_neg hn]
      rw [List.append_assoc]
      rfl

theorem repr_eq_decChars (n : Nat) : Nat.repr n = String.mk (decChars n) := by
  show (Nat.toDigits 10 n).asString = String.mk (decChars n)
  unfold Nat.toDigits
  rw [toDigitsCore_eq_decChars (n + 1) n [] (by omega), List.append_nil]
  rfl

theorem decChars_ne_nil (n : Nat) : decChars n ≠ [] := by
  rw [decChars]
  split <;> simp

theorem decChars_digits (n : Nat) : ∀ c ∈ decChars n, c.isDigit = true := by
  induction n using Nat.strong_induction_on with
  | _ n ih =>
    rw [decChars]
    split
    · intro c hc
      rw [List.mem_singleton] at hc
      subst hc
      exact digitChar_isDigit n (by omega)
    · intro c hc
      rw [List.mem_append] at hc
      rcases hc with hc | hc
      · exact ih (n / 10) (Nat.div_lt_self (by omega) (by omega)) c hc
      · rw [List.mem_singleton] at hc
        subst hc
        exact digitChar_isDigit (n % 10) (Nat.mod_lt n (by omega))

theorem decChars_length_ge : ∀ (e n : Nat), 10 ^ e ≤ n → e + 1 ≤ (decChars n).length := by
  intro e
  induction e with
  | zero =>
    intro n _
    have := decChars_ne_nil n
    cases hd : decChars n with
    | nil => exact absurd hd this
    | cons c t => simp
  | succ e ih =>
    intro n h
    have hn : ¬ n < 10 := by
      intro hcon
      have h1 : 10 ≤ 10 ^ (e + 1) := by
        calc 10 = 10 ^ 1 := by norm_num
          _ ≤ 10 ^ (e + 1) := Nat.pow_le_pow_right (by omega) (by omega)
      omega
    have hdiv : 10 ^ e ≤ n / 10 := by
      rw [Nat.le_div_iff_mul_le (by omega)]
      calc 10 ^ e * 10 = 10 ^ (e + 1) := by ring
        _ ≤ n := h
    rw [decChars, if_neg hn, List.length_append]
    have := ih (n / 10) hdiv
    simp
    omega

/-- C8: `formatPrice(null, s)` and `formatPrice(undefined, s)` (the absent
amount) both render as `s ++ "0.00"`, and for every amount the result is the
symbol followed by the amount rendered with a final "." and exactly two
decimal digits (the part before the dot being a minus sign and/or decimal
digits only). -/
theorem formatPrice_two_decimals (s : String) (q : Rat) :
    formatPrice none s = s ++ "0.00" ∧
    ∃ intPart fracPart : String,
      formatPrice (some q) s = s ++ intPart ++ "." ++ fracPart ∧
      fracPart.length = 2 ∧
      (∀ c ∈ fracPart.data, c.isDigit = true) ∧
      (∀ c ∈ intPart.data, c = '-' ∨ c.isDigit = true) := by
  refine ⟨rfl, ?_⟩
  have hfraclen : ∀ r : Nat, (String.mk (twoDecimalChars r)).length = 2 := by
    intro r
    rfl
  have hfracdig : ∀ r : Nat, ∀ c ∈ (String.mk (twoDecimalChars r)).data, c.isDigit = true := by
    intro r c hc
    have hc2 : c ∈ twoDecimalChars r := hc
    simp only [twoDecimalChars, List.mem_cons, List.not_mem_nil, or_false] at hc2
    rcases hc2 with hc2 | hc2 <;>
      (subst hc2; exact digitChar_isDigit _ (Nat.mod_lt _ (by omega)))
  have hreprdig : ∀ m : Nat, ∀ c ∈ (Nat.repr m).data, c = '-' ∨ c.isDigit = true := by
    intro m c hc
    rw [repr_eq_decChars] at hc
    exact Or.inr (decChars_digits m c hc)
  by_cases hq : q < 0
  · refine ⟨"-" ++ Nat.repr ((-q * 100 + 1 / 2).floor.toNat / 100),
      String.mk (twoDecimalChars ((-q * 100 + 1 / 2).floor.toNat % 100)), ?_,
      hfraclen _, hfracdig _, ?_⟩
    · show s ++ toFixed2 q = _
      rw [toFixed2, if_pos hq]
      show s ++ ("-" ++ toFixed2Abs (-q)) = _
      rw [toFixed2Abs]
      simp only [String.append_assoc]
    · intro c hc
      rw [String.data_append] at hc
      rcases List.mem_append.mp hc with hc | hc
      · left
        have hc2 : c ∈ ['-'] := hc
        rw [List.mem_singleton] at hc2
        exact hc2
      · exact hreprdig _ c hc
  · refine ⟨Nat.repr ((q * 100 + 1 / 2).floor.toNat / 100),
      String.mk (twoDecimalChars ((q * 100 + 1 / 2).floor.toNat % 100)), ?_,
      hfraclen _, hfracdig _, hreprdig _⟩
    show s ++ toFixed2 q = _
    rw [toFixed2, if_neg hq, toFixed2Abs]
    simp only [String.append_assoc]

/-- Witness for C8: the absent amount formats as `€0.00`, and the concrete
amount 0 formats as `€0.00` as well (two decimal digits). -/
theorem formatPrice_two_decimals_witness :
    formatPrice none "€" = "€" ++ "0.00" ∧ formatPrice (some 0) "€" = "€0.00" := by
  constructor
  · exact (formatPrice_two_decimals "€" 0).1
  · show "€" ++ toFixed2 0 = "€0.00"
    rw [toFixed2, if_neg (by norm_num), toFixed2Abs]
    rw [show ((0 : Rat) * 100 + 1 / 2) = Rat.divInt 1 2 by norm_num [Rat.divInt]]
    rfl

theorem takeWhile_append_of_all (p : Char → Bool) (l1 l2 : List Char)
    (h : ∀ c ∈ l1, p c = true) :
    (l1 ++ l2).takeWhile p = l1 ++ l2.takeWhile p := by
  induction l1 with
  | nil => rfl
  | cons c t ih =>
    have hc := h c (List.mem_cons_self c t)
    simp only [List.cons_append, List.takeWhile_cons, hc]
    rw [ih (fun x hx => h x (List.mem_cons_of_mem c hx))]
    simp

theorem takeWhile_eq_nil_of_head (p : Char → Bool) (l : List Char)
    (h : ∀ c, l.head? = some c → p c = false) :
    l.takeWhile p = [] := by
  cases l with
  | nil => rfl
  | cons c t =>
    have hc := h c rfl
    simp [List.takeWhile_cons, hc]

theorem firstDigitRun_some_ne_nil :
    ∀ (l ds : List Char), firstDigitRun l = some ds → ds ≠ [] := by
  intro l
  induction l with
  | nil => intro ds h; simp [firstDigitRun] at h
  | cons c t ih =>
    intro ds h
    rw [firstDigitRun] at h
    split at h
    · simp only [Option.some.injEq] at h
      subst h
      simp
    · exact ih ds h

theorem firstDigitRun_of_split (pre ds post : List Char)
    (hpre : ∀ c ∈ pre, c.isDigit = false) (hds0 : ds ≠ [])
    (hds : ∀ c ∈ ds, c.isDigit = true)
    (hpost : ∀ c, post.head? = some c → c.isDigit = false) :
    firstDigitRun (pre ++ ds ++ post) = some ds := by
  induction pre with
  | nil =>
    cases ds with
    | nil => exact absurd rfl hds0
    | cons d rest =>
      have hd := hds d (List.mem_cons_self d rest)
      simp only [List.nil_append, List.cons_append, firstDigitRun, hd, if_pos]
      show some (d :: List.takeWhile Char.isDigit (rest ++ post)) = some (d :: rest)
      rw [takeWhile_append_of_all Char.isDigit rest post
        (fun c hc => hds c (List.mem_cons_of_mem d hc))]
      rw [takeWhile_eq_nil_of_head Char.isDigit post hpost, List.append_nil]
  | cons c t ih =>
    have hc := hpre c (List.mem_cons_self c t)
    simp only [List.cons_append, firstDigitRun, hc]
    rw [if_neg (by simp)]
    exact ih (fun x hx => hpre x (List.mem_cons_of_mem c hx))

theorem firstDigitRun_none_of_no_digit :
    ∀ (l : List Char), (∀ c ∈ l, c.isDigit = false) → firstDigitRun l = none := by
  intro l
  induction l with
  | nil => intro _; rfl
  | cons c t ih =>
    intro h
    have hc := h c (List.mem_cons_self c t)
    rw [firstDigitRun, if_neg (by simp [hc])]
    exact ih (fun x hx => h x (List.mem_cons_of_mem c hx))

theorem string_ne_empty_of_data_ne_nil (s : String) (h : s.data ≠ []) : s ≠ "" := by
  intro hcon
  subst hcon
  exact h rfl

theorem append_ne_empty_right (a b : String) (h : b.data ≠ []) : a ++ b ≠ "" := by
  apply string_ne_empty_of_data_ne_nil
  rw [String.data_append]
  intro hcon
  exact h (List.append_eq_nil.mp hcon).2

theorem sliceLast_repr_data (now : Nat) :
    (sliceLast (Nat.repr now) 6).data
      = (decChars now).drop ((decChars now).length - 6) := by
  rw [sliceLast, repr_eq_decChars]

theorem sliceLast_repr_ne_nil (now : Nat) : (sliceLast (Nat.repr now) 6).data ≠ [] := by
  rw [sliceLast_repr_data]
  intro hcon
  have h1 := decChars_ne_nil now
  have h2 : (decChars now).length ≠ 0 := by
    intro h0
    exact h1 (List.length_eq_zero.mp h0)
  rw [List.drop_eq_nil_iff] at hcon
  omega

/-- C5: `generateInvoiceNumber` returns prefix ++ first digit run when the
name contains digits (where "first digit run" is characterised by an
arbitrary split pre/ds/post with no digit in pre, ds nonempty all digits,
and post not starting with a digit); "#D123" with prefix "INV-EE-" gives
"INV-EE-123"; an absent, empty or digit-free name gives
prefix ++ the last six characters of the decimal timestamp, which for any
realistic time (now with at least six digits) is a six-digit string; and
the result is never empty. -/
theorem generateInvoiceNumber_spec (pfx : String) (now : Nat) :
    (∀ s pre ds post, s.data = pre ++ ds ++ post →
      (∀ c ∈ pre, c.isDigit = false) → ds ≠ [] → (∀ c ∈ ds, c.isDigit = true) →
      (∀ c, post.head? = some c → c.isDigit = false) →
      generateInvoiceNumber (some s) pfx now = pfx ++ String.mk ds) ∧
    generateInvoiceNumber (some "#D123") "INV-EE-" now = "INV-EE-123" ∧
    (∀ name, (name = none ∨ name = some "" ∨
        (∃ s, name = some s ∧ ∀ c ∈ s.data, c.isDigit = false)) →
      generateInvoiceNumber name pfx now = pfx ++ sliceLast (Nat.repr now) 6) ∧
    (10 ^ 5 ≤ now → (sliceLast (Nat.repr now) 6).length = 6 ∧
      ∀ c ∈ (sliceLast (Nat.repr now) 6).data, c.isDigit = true) ∧
    (∀ name, generateInvoiceNumber name pfx now ≠ "") := by
  have hfall : ∀ s : String, (∀ c ∈ s.data, c.isDigit = false) →
      generateInvoiceNumber (some s) pfx now = pfx ++ sliceLast (Nat.repr now) 6 := by
    intro s hnd
    rw [generateInvoiceNumber]
    by_cases hs : s = ""
    · rw [if_neg (by simp [hs])]
    · rw [if_pos hs, firstDigitRun_none_of_no_digit s.data hnd]
  refine ⟨?_, ?_, ?_, ?_, ?_⟩
  · intro s pre ds post hsplit hpre hds0 hds hpost
    have hrun : firstDigitRun s.data = some ds := by
      rw [hsplit]
      exact firstDigitRun_of_split pre ds post hpre hds0 hds hpost
    have hs : s ≠ "" := by
      apply string_ne_empty_of_data_ne_nil
      rw [hsplit]
      intro hcon
      exact hds0 (List.append_eq_nil.mp (List.append_eq_nil.mp hcon).1).2
    rw [generateInvoiceNumber, if_pos hs, hrun]
  · rw [generateInvoiceNumber, if_pos (by decide),
      show firstDigitRun (String.data "#D123") = some (String.toList "123") from by decide]
    rfl
  · intro name hname
    rcases hname with hname | hname | ⟨s, hname, hnd⟩
    · subst hname; rfl
    · subst hname
      rw [generateInvoiceNumber, if_neg (by simp)]
    · subst hname
      exact hfall s hnd
  · intro hnow
    have hlen : 6 ≤ (decChars now).length := by
      have := decChars_length_ge 5 now hnow
      omega
    constructor
    · show (sliceLast (Nat.repr now) 6).data.length = 6
      rw [sliceLast_repr_data, List.length_drop]
      omega
    · intro c hc
      rw [sliceLast_repr_data] at hc
      exact decChars_digits now c (List.drop_subset _ _ hc)
  · intro name
    cases name with
    | none => exact append_ne_empty_right pfx _ (sliceLast_repr_ne_nil now)
    | some s =>
      rw [generateInvoiceNumber]
      by_cases hs : s = ""
      · rw [if_neg (by simp [hs])]
        exact append_ne_empty_right pfx _ (sliceLast_repr_ne_nil now)
      · rw [if_pos hs]
        cases hrun : firstDigitRun s.data with
        | none => exact append_ne_empty_right pfx _ (sliceLast_repr_ne_nil now)
        | some ds =>
          apply append_ne_empty_right
          exact firstDigitRun_some_ne_nil s.data ds hrun

/-- Witness for C5: the name "#D123" yields "INV-EE-123" (via the split
"#D" / "123" / ""), an absent name yields the prefix plus the last six
timestamp digits ("345678" for 1728312345678), and the result is non-empty. -/
theorem generateInvoiceNumber_spec_witness :
    generateInvoiceNumber (some "#D123") "INV-EE-" 1728312345678 = "INV-EE-123" ∧
    generateInvoiceNumber none "INV-EE-" 1728312345678
      = "INV-EE-" ++ sliceLast (Nat.repr 1728312345678) 6 ∧
    generateInvoiceNumber none "INV-EE-" 1728312345678 ≠ "" :=
  ⟨((generateInvoiceNumber_spec "INV-EE-" 1728312345678).1 "#D123"
      (String.toList "#D") (String.toList "123") [] (by decide) (by decide) (by decide)
      (by decide) (fun c hc => by cases hc)).trans rfl,
   (generateInvoiceNumber_spec "INV-EE-" 1728312345678).2.2.1 none (Or.inl rfl),
   (generateInvoiceNumber_spec "INV-EE-" 1728312345678).2.2.2.2 none⟩

end Eurosec
